import Mathlib

/-!
Shallow embedding of the photograph-api server (src/server.js) in Lean 4.

The server keeps asset metadata (photos/videos) in a relational store
(Prisma) and a read-through TTL cache (Redis) in front of it.  We model the
store as a list of `Asset` records (Prisma findMany row order = list order),
the cache as an association list of key / serialized-value / TTL entries, and
each route handler as a pure function from its request input and the
(cache, store) state to a response plus the new state.  Collaborator calls
(store queries, cache operations) are counted in the result so that claims
about "no cache/store access" are expressible.
-/

namespace PhotoApi

/-- An asset row (Photo or Video) as modelled in prisma/schema: `id` string
primary key, `url`, `tags` string array, `title`, nullable `deletedAt`
timestamp (tombstone), `createdAt`, `updatedAt`.  Timestamps are `Nat`. -/
structure Asset where
  id : String
  url : String
  tags : List String
  title : String
  deletedAt : Option Nat
  createdAt : Nat
  updatedAt : Nat
deriving DecidableEq, Repr

/-- A cached value: `JSON.stringify` of either a single record
(`findUnique` result) or a record array (`findMany` result).  We keep the
structured value rather than the byte string; serialization is injective so
nothing is lost. -/
inductive CacheVal where
  | single (a : Asset)
  | many (l : List Asset)
deriving DecidableEq, Repr

/-- The Redis cache: key, value, remaining TTL seconds. -/
abbrev Cache := List (String × CacheVal × Nat)

/-- `redisClient.get key`: the value stored under `key`, if any. -/
def cacheGet (c : Cache) (k : String) : Option CacheVal :=
  (c.find? (fun e => e.1 == k)).map (fun e => e.2.1)

/-- `redisClient.setEx key ttl value`: last-write-wins overwrite. -/
def cacheSetEx (c : Cache) (k : String) (ttl : Nat) (v : CacheVal) : Cache :=
  (k, v, ttl) :: c.filter (fun e => e.1 != k)

/-- The two Prisma read queries issued through `fetchAndCache`:
`findUnique({where:{id}})` and `findMany({where:{tags:{hasSome:tagList}}})`. -/
inductive PrismaQuery where
  | findUniqueById (id : String)
  | findManyHasSome (tags : List String)
deriving DecidableEq, Repr

/-- `hasSome`: the row has at least one tag from the query list. -/
def hasSomeTag (queryTags : List String) (a : Asset) : Bool :=
  a.tags.any (fun t => queryTags.contains t)

/-- Run a Prisma read against the store.  `findUnique` yields `none` when no
row matches (JS `null`); `findMany` always yields an array, possibly empty.
Note: neither query filters on `deletedAt`. -/
def runQuery (store : List Asset) : PrismaQuery → Option CacheVal
  | .findUniqueById i => (store.find? (fun a => a.id == i)).map CacheVal.single
  | .findManyHasSome ts => some (.many (store.filter (hasSomeTag ts)))

/-- JS `if (!result || (Array.isArray(result) && result.length === 0))`:
an array result counts as absent when empty. -/
def isEmptyResult : CacheVal → Bool
  | .many [] => true
  | _ => false

/-- An HTTP response as the handlers produce it. -/
inductive Response where
  | ok (v : CacheVal)
  | okDeleted (a : Asset)
  | notFound (model : String)
  | badRequest (msg : String)
  | serverError
deriving DecidableEq, Repr

/-- Result of a read handler: the response, the cache after the request, and
how many store queries / cache operations were attempted. -/
structure HandlerResult where
  response : Response
  cache : Cache
  storeCalls : Nat
  cacheCalls : Nat
deriving DecidableEq, Repr

/-- `fetchAndCache` (server.js:88-113).  `cacheUp` models whether the Redis
backend is reachable: when it is down, `await redisClient.get` throws, the
surrounding `try`/`catch` forwards the error to `next(err)`, and the global
error handler answers 500 — the store is never consulted.  Otherwise:
cache hit → return parsed value; miss → run the Prisma query; null or empty
array → 404 with no cache write; found → `setEx(key, 3600, value)` then
return the result. -/
def fetchAndCache (cacheUp : Bool) (modelName : String) (redisKey : String)
    (q : PrismaQuery) (cache : Cache) (store : List Asset) : HandlerResult :=
  if cacheUp = false then
    { response := .serverError, cache := cache, storeCalls := 0, cacheCalls := 1 }
  else
    match cacheGet cache redisKey with
    | some v =>
        { response := .ok v, cache := cache, storeCalls := 0, cacheCalls := 1 }
    | none =>
        match runQuery store q with
        | none =>
            { response := .notFound modelName, cache := cache,
              storeCalls := 1, cacheCalls := 1 }
        | some v =>
            if isEmptyResult v then
              { response := .notFound modelName, cache := cache,
                storeCalls := 1, cacheCalls := 1 }
            else
              { response := .ok v, cache := cacheSetEx cache redisKey 3600 v,
                storeCalls := 1, cacheCalls := 2 }

/-- `GET /v1/photos/:id` (server.js:152-174).  `id : Option String` models the
JS value (`none` = null/undefined); empty or absent id fails validation with
400 before any collaborator call.  Cache key `photos:id:<id>`. -/
def getPhotoById (id : Option String) (cacheUp : Bool) (cache : Cache)
    (store : List Asset) : HandlerResult :=
  match id with
  | none =>
      { response := .badRequest "Invalid photo ID", cache := cache,
        storeCalls := 0, cacheCalls := 0 }
  | some i =>
      if i = "" then
        { response := .badRequest "Invalid photo ID", cache := cache,
          storeCalls := 0, cacheCalls := 0 }
      else
        fetchAndCache cacheUp "photo" ("photos:id:" ++ i)
          (.findUniqueById i) cache store

/-- JS whitespace for `String.prototype.trim` (the cases that matter here). -/
def isWs (c : Char) : Bool := c = ' ' || c = '\t' || c = '\n' || c = '\r'

/-- Character-level worker for `split(",")`: `acc` holds the current piece
reversed. -/
def splitCommaChars : List Char → List Char → List (List Char)
  | [], acc => [acc.reverse]
  | c :: rest, acc =>
      if c = ',' then acc.reverse :: splitCommaChars rest []
      else splitCommaChars rest (c :: acc)

/-- JS `s.split(",")`: always at least one piece; `"" → [""]`. -/
def splitComma (s : String) : List String :=
  (splitCommaChars s.data []).map (fun l => ⟨l⟩)

/-- JS `s.trim()`: strip leading and trailing whitespace. -/
def jsTrim (s : String) : String :=
  ⟨((s.data.dropWhile isWs).reverse.dropWhile isWs).reverse⟩

/-- `tags.split(",").map(tag => tag.trim())` (server.js:188). -/
def splitTrim (tags : String) : List String :=
  (splitComma tags).map jsTrim

/-- JS `list.join(",")`. -/
def joinComma : List String → String
  | [] => ""
  | [s] => s
  | s :: rest => s ++ "," ++ joinComma rest

/-- The Redis key for the photo tag search (server.js:190):
`photos:tags:` ++ the trimmed tag list re-joined by commas — the source does
not sort or de-duplicate the tags. -/
def photosTagsKey (tags : String) : String :=
  "photos:tags:" ++ joinComma (splitTrim tags)

/-- `GET /v1/photos?tags=a,b` (server.js:178-209).  Absent or empty `tags`
fails validation with 400 before any collaborator call; otherwise
`fetchAndCache` with a `hasSome` query over the trimmed list. -/
def getPhotosByTags (tags : Option String) (cacheUp : Bool) (cache : Cache)
    (store : List Asset) : HandlerResult :=
  match tags with
  | none =>
      { response := .badRequest "Invalid tags", cache := cache,
        storeCalls := 0, cacheCalls := 0 }
  | some t =>
      if t = "" then
        { response := .badRequest "Invalid tags", cache := cache,
          storeCalls := 0, cacheCalls := 0 }
      else
        fetchAndCache cacheUp "photo" (photosTagsKey t)
          (.findManyHasSome (splitTrim t)) cache store

/-- Structural lexicographic comparison on characters, for the spec-side
sorted key. -/
def charListLe : List Char → List Char → Bool
  | [], _ => true
  | _ :: _, [] => false
  | c :: cs, d :: ds => if c = d then charListLe cs ds else decide (c < d)

/-- Lexicographic `≤` on strings as a boolean. -/
def strLe (s t : String) : Bool := charListLe s.data t.data

/-- Insert into a sorted list of strings. -/
def insertSorted (s : String) : List String → List String
  | [] => [s]
  | t :: rest => if strLe s t then s :: t :: rest else t :: insertSorted s rest

/-- Insertion sort on strings. -/
def sortStrings : List String → List String
  | [] => []
  | s :: rest => insertSorted s (sortStrings rest)

/-- The spec's key derivation for comparison (§4.1): sorted, de-duplicated
tag list joined by a stable delimiter.  Modelled from the spec: the source
key derivation (`photosTagsKey`) does not sort or dedupe. -/
def specTagsKey (tags : String) : String :=
  "photos:tags:" ++ joinComma (sortStrings (splitTrim tags).dedup)

/-- The `where` clause of the paged video listing (server.js:430-436): an
optional single exact-match tag (`has`), no filter at all otherwise.  Note:
no `deletedAt` condition in either branch. -/
def pagedWhere (tag : Option String) (a : Asset) : Bool :=
  match tag with
  | some t => a.tags.contains (jsTrim t)
  | none => true

/-- Response of `GET /v1/videos` paged listing (server.js:458-465). -/
structure PagedResponse where
  videos : List Asset
  totalVideos : Nat
  totalPages : Nat
  currentPage : Option Nat
  hasNextPage : Bool
  hasPreviousPage : Bool
deriving DecidableEq, Repr

/-- `GET /v1/videos?page&limit&tag` paged listing (server.js:421-470).
`page` defaults to 1 and is clamped to ≥ 1; `limit` defaults to 10;
`limit = 0` means fetch-all (`isFetchAll`), returning every match with
`totalPages = 1` and `currentPage = null`.  `skip = (page-1)*limit`,
`take = limit`; `totalPages = ceil(count / limit)`;
`hasNextPage = !isFetchAll && page < totalPages`,
`hasPreviousPage = !isFetchAll && page > 1`. -/
def pagedListVideos (page limit : Option Nat) (tag : Option String)
    (store : List Asset) : PagedResponse :=
  let currentPage := match page with
    | some p => if p > 0 then p else 1
    | none => 1
  let pageSize := limit.getD 10
  let isFetchAll := pageSize == 0
  let matching := store.filter (pagedWhere tag)
  let videos :=
    if isFetchAll then matching
    else (matching.drop ((currentPage - 1) * pageSize)).take pageSize
  let totalVideos := matching.length
  let totalPages := if isFetchAll then 1 else (totalVideos + pageSize - 1) / pageSize
  { videos := videos
    totalVideos := totalVideos
    totalPages := totalPages
    currentPage := if isFetchAll then none else some currentPage
    hasNextPage := !isFetchAll && decide (currentPage < totalPages)
    hasPreviousPage := !isFetchAll && decide (currentPage > 1) }

/-- Input to the photo upload handler, after multer/body parsing:
whether a file arrived, its generated filename, the `tags` body field
(parsed JSON array; `none` = field absent/falsy) and the optional `imageId`. -/
structure UploadReq where
  file : Option String
  tags : Option (List String)
  imageId : Option String
deriving DecidableEq, Repr

/-- Result of the upload handler: response and the store after the request. -/
structure UploadResult where
  response : Response
  store : List Asset
deriving DecidableEq, Repr

/-- Build the row `prisma.photo.create` inserts (server.js:259-265): url from
the uploaded filename, parsed tags, the caller id when supplied and a
server-generated id (`cuid`, modelled as the `genId` argument) otherwise;
`title` defaults to `""`, timestamps to `now`. -/
def newAsset (filename : String) (tags : List String) (imageId : Option String)
    (genId : String) (now : Nat) : Asset :=
  { id := imageId.getD genId
    url := "/uploads/" ++ filename
    tags := tags
    title := ""
    deletedAt := none
    createdAt := now
    updatedAt := now }

/-- `POST /v1/photos/upload` (server.js:226-271).  Order of checks: missing
file → 400; missing tags → 400; `prisma.photo.count()` (all rows, tombstones
included) ≥ 50 → 400 capacity error and no insert; supplied `imageId`
colliding with an existing row → 400; otherwise insert the new row. -/
def uploadPhoto (req : UploadReq) (genId : String) (now : Nat)
    (store : List Asset) : UploadResult :=
  match req.file with
  | none => { response := .badRequest "Photo file is required", store := store }
  | some filename =>
      match req.tags with
      | none => { response := .badRequest "Tags are required", store := store }
      | some tagList =>
          if store.length ≥ 50 then
            { response := .badRequest "Photo storage limit reached (50)",
              store := store }
          else
            match req.imageId with
            | some i =>
                if (store.find? (fun a => a.id == i)).isSome then
                  { response := .badRequest "Photo ID already exists",
                    store := store }
                else
                  let a := newAsset filename tagList (some i) genId now
                  { response := .ok (.single a), store := store ++ [a] }
            | none =>
                let a := newAsset filename tagList none genId now
                { response := .ok (.single a), store := store ++ [a] }

/-- `POST /v1/videos/upload` capacity check (server.js:398-401): same shape
with ceiling 20 and no caller-supplied id. -/
def uploadVideo (req : UploadReq) (genId : String) (now : Nat)
    (store : List Asset) : UploadResult :=
  match req.file with
  | none => { response := .badRequest "Video file is required", store := store }
  | some filename =>
      match req.tags with
      | none => { response := .badRequest "Tags are required", store := store }
      | some tagList =>
          if store.length ≥ 20 then
            { response := .badRequest "Video storage limit reached (20)",
              store := store }
          else
            let a := newAsset filename tagList none genId now
            { response := .ok (.single a), store := store ++ [a] }

/-- Result of a delete handler: response, cache and store afterwards. -/
structure DeleteResult where
  response : Response
  cache : Cache
  store : List Asset
deriving DecidableEq, Repr

/-- The row after `prisma.photo.update({data:{deletedAt: new Date()}})`:
only `deletedAt` is written by the handler; Prisma's `@updatedAt` bumps
`updatedAt` as a side effect of the update.  All other columns keep their
values. -/
def tombstone (now : Nat) (a : Asset) : Asset :=
  { a with deletedAt := some now, updatedAt := now }

/-- `DELETE /v1/photos/:id` (server.js:349-379).  Invalid id → 400;
`prisma.photo.update` on a missing id throws P2025, answered 404 with nothing
changed; on a present id the row is updated in place (never removed) and
returned.  The handler performs no cache operation: the cache is passed
through untouched. -/
def softDeletePhoto (id : Option String) (now : Nat) (cache : Cache)
    (store : List Asset) : DeleteResult :=
  match id with
  | none =>
      { response := .badRequest "Invalid photo ID", cache := cache, store := store }
  | some i =>
      if i = "" then
        { response := .badRequest "Invalid photo ID", cache := cache, store := store }
      else
        match store.find? (fun a => a.id == i) with
        | none =>
            { response := .notFound "Photo", cache := cache, store := store }
        | some a =>
            let a2 := tombstone now a
            { response := .okDeleted a2, cache := cache,
              store := store.map (fun b => if b.id == i then a2 else b) }

/-- `DELETE /v1/videos/:id` (server.js:275-302 and 474-496): identical to the
photo handler in everything the claims touch — sets `deletedAt`, maps P2025
to 404, and never touches the cache. -/
def softDeleteVideo (id : Option String) (now : Nat) (cache : Cache)
    (store : List Asset) : DeleteResult :=
  match id with
  | none =>
      { response := .badRequest "Invalid video ID", cache := cache, store := store }
  | some i =>
      if i = "" then
        { response := .badRequest "Invalid video ID", cache := cache, store := store }
      else
        match store.find? (fun a => a.id == i) with
        | none =>
            { response := .notFound "Video", cache := cache, store := store }
        | some a =>
            let a2 := tombstone now a
            { response := .okDeleted a2, cache := cache,
              store := store.map (fun b => if b.id == i then a2 else b) }

/-! ### Concrete records for witnesses and counterexamples -/

/-- A live photo record. -/
def p1 : Asset :=
  { id := "p1", url := "/uploads/f", tags := ["a"], title := "",
    deletedAt := none, createdAt := 0, updatedAt := 0 }

/-- A tombstoned record: `deletedAt` is set. -/
def tomb1 : Asset :=
  { id := "t1", url := "/uploads/g", tags := ["a"], title := "",
    deletedAt := some 5, createdAt := 0, updatedAt := 5 }

/-! ### Claims -/

/-- C1: by-id lookup first consults the cache under `photos:id:<id>`; a hit
returns the deserialized cached value with no store query and no cache
write; a miss with no matching record answers NotFound and writes nothing to
the cache; a miss with a found record writes the record through with TTL
3600 and returns it. -/
theorem c1_getById_cache_protocol (i : String) (cache : Cache)
    (store : List Asset) (hne : i ≠ "") :
    (∀ v, cacheGet cache ("photos:id:" ++ i) = some v →
      getPhotoById (some i) true cache store =
        { response := .ok v, cache := cache, storeCalls := 0, cacheCalls := 1 }) ∧
    (cacheGet cache ("photos:id:" ++ i) = none →
      store.find? (fun a => a.id == i) = none →
      getPhotoById (some i) true cache store =
        { response := .notFound "photo", cache := cache,
          storeCalls := 1, cacheCalls := 1 }) ∧
    (∀ a, cacheGet cache ("photos:id:" ++ i) = none →
      store.find? (fun b => b.id == i) = some a →
      getPhotoById (some i) true cache store =
        { response := .ok (.single a),
          cache := cacheSetEx cache ("photos:id:" ++ i) 3600 (.single a),
          storeCalls := 1, cacheCalls := 2 }) := by
  refine ⟨?_, ?_, ?_⟩
  · intro v hv
    simp [getPhotoById, hne, fetchAndCache, hv]
  · intro hv hf
    simp [getPhotoById, hne, fetchAndCache, hv, runQuery, hf]
  · intro a hv hf
    simp [getPhotoById, hne, fetchAndCache, hv, runQuery, hf, isEmptyResult]

/-- C1 witness: a concrete miss-then-found lookup writes through with TTL
3600 and returns the record. -/
theorem c1_getById_cache_protocol_witness :
    getPhotoById (some "p1") true [] [p1] =
      { response := .ok (.single p1),
        cache := cacheSetEx [] "photos:id:p1" 3600 (.single p1),
        storeCalls := 1, cacheCalls := 2 } :=
  (c1_getById_cache_protocol "p1" [] [p1] (by decide)).2.2 p1 rfl rfl

/-- C4 counterexample: the source key derivation is not the sorted,
de-duplicated one — `"b,a"` and `"a,b"` (and `"a,a"` vs `"a"`) produce
distinct cache keys, so reordered queries do not hit the same entry. -/
theorem c4_key_not_sorted_counterexample :
    photosTagsKey "b,a" ≠ photosTagsKey "a,b" ∧
    photosTagsKey "a,a" ≠ photosTagsKey "a" := by
  exact ⟨by decide, by decide⟩

/-- C4 amended: the key is built from the trimmed tag list in input order
with duplicates kept, so set-equal tag lists can map to distinct keys even
though the store query they describe returns identical results (`hasSome` is
set-like); the spec's sorted-dedup derivation (`specTagsKey`) is
order-invariant where the source one is not. -/
theorem c4_amended_key_order_sensitive (l1 l2 : List String)
    (store : List Asset) (hset : ∀ x, x ∈ l1 ↔ x ∈ l2) :
    store.filter (hasSomeTag l1) = store.filter (hasSomeTag l2) ∧
    photosTagsKey "b,a" ≠ photosTagsKey "a,b" ∧
    specTagsKey "b,a" = specTagsKey "a,b" := by
  refine ⟨?_, by decide, by decide⟩
  apply List.filter_congr
  intro a _
  unfold hasSomeTag
  rw [Bool.eq_iff_iff]
  simp only [List.any_eq_true, List.elem_iff]
  exact ⟨fun ⟨t, ht, hm⟩ => ⟨t, ht, (hset t).mp hm⟩,
         fun ⟨t, ht, hm⟩ => ⟨t, ht, (hset t).mpr hm⟩⟩

/-- C4 amended witness: concrete set-equal tag lists give equal query
results, while the concrete keys differ. -/
theorem c4_amended_key_order_sensitive_witness :
    [p1].filter (hasSomeTag ["a", "b"]) = [p1].filter (hasSomeTag ["b", "a"]) ∧
    photosTagsKey "b,a" ≠ photosTagsKey "a,b" := by
  have h := c4_amended_key_order_sensitive ["a", "b"] ["b", "a"] [p1]
    (by intro x; constructor <;> (intro hx; simp at hx; simp [hx]; tauto))
  exact ⟨h.1, h.2.1⟩

/-- C5 counterexample: with the cache backend down, a by-id read for a
record that is present in the store answers 500 and never consults the
store — it does not degrade to serving from the Record Store. -/
theorem c5_cache_down_counterexample :
    (getPhotoById (some "p1") false [] [p1]).response = .serverError ∧
    (getPhotoById (some "p1") false [] [p1]).storeCalls = 0 := by
  exact ⟨rfl, rfl⟩

/-- C5 amended: when a cache operation fails, the read handlers forward the
error to the error-handling middleware, which answers 500; the Record Store
is not consulted and the request fails instead of being served store-direct. -/
theorem c5_amended_cache_down_fails (i t : String) (cache : Cache)
    (store : List Asset) (hi : i ≠ "") (ht : t ≠ "") :
    getPhotoById (some i) false cache store =
      { response := .serverError, cache := cache,
        storeCalls := 0, cacheCalls := 1 } ∧
    getPhotosByTags (some t) false cache store =
      { response := .serverError, cache := cache,
        storeCalls := 0, cacheCalls := 1 } := by
  constructor
  · simp [getPhotoById, hi, fetchAndCache]
  · simp [getPhotosByTags, ht, fetchAndCache]

/-- C5 amended witness: concrete cache-down reads answer 500 with zero store
calls. -/
theorem c5_amended_cache_down_fails_witness :
    getPhotoById (some "p1") false [] [p1] =
      { response := .serverError, cache := [],
        storeCalls := 0, cacheCalls := 1 } ∧
    getPhotosByTags (some "a") false [] [p1] =
      { response := .serverError, cache := [],
        storeCalls := 0, cacheCalls := 1 } :=
  c5_amended_cache_down_fails "p1" "a" [] [p1] (by decide) (by decide)

/-- C8: a missing/empty id and a missing/empty tags query are rejected with
a 400 validation response before any cache or store access: both collaborator
call counters are zero and the cache is unchanged. -/
theorem c8_validation_before_access (cache : Cache) (store : List Asset)
    (up : Bool) :
    getPhotoById none up cache store =
      { response := .badRequest "Invalid photo ID", cache := cache,
        storeCalls := 0, cacheCalls := 0 } ∧
    getPhotoById (some "") up cache store =
      { response := .badRequest "Invalid photo ID", cache := cache,
        storeCalls := 0, cacheCalls := 0 } ∧
    getPhotosByTags none up cache store =
      { response := .badRequest "Invalid tags", cache := cache,
        storeCalls := 0, cacheCalls := 0 } ∧
    getPhotosByTags (some "") up cache store =
      { response := .badRequest "Invalid tags", cache := cache,
        storeCalls := 0, cacheCalls := 0 } := by
  refine ⟨rfl, by simp [getPhotoById], by rfl, by simp [getPhotosByTags]⟩

/-- C10: a tag query whose store result is the empty list answers 404
NotFound (not an empty success payload) and writes nothing to the cache, so
the entry stays absent and a repeat query reaches the store again. -/
theorem c10_empty_result_not_cached (t : String) (cache : Cache)
    (store : List Asset) (hne : t ≠ "")
    (hmiss : cacheGet cache (photosTagsKey t) = none)
    (hempty : store.filter (hasSomeTag (splitTrim t)) = []) :
    getPhotosByTags (some t) true cache store =
      { response := .notFound "photo", cache := cache,
        storeCalls := 1, cacheCalls := 1 } := by
  simp [getPhotosByTags, hne, fetchAndCache, hmiss, runQuery, hempty,
    isEmptyResult]

/-- C10 witness: a concrete no-match tag query answers 404 and leaves the
cache empty. -/
theorem c10_empty_result_not_cached_witness :
    getPhotosByTags (some "z") true [] [p1] =
      { response := .notFound "photo", cache := [],
        storeCalls := 1, cacheCalls := 1 } :=
  c10_empty_result_not_cached "z" [] [p1] (by decide) rfl (by decide)

/-- Helper: a `findMany` result over a nonempty list is not treated as
absent. -/
theorem isEmptyResult_many_eq_false (l : List Asset) (h : l ≠ []) :
    isEmptyResult (.many l) = false := by
  cases l with
  | nil => exact absurd rfl h
  | cons x xs => rfl

/-- C2 counterexample: a tombstoned record (non-null `deletedAt`) is
returned by the tag search and by the paged listing — no query filters on
`deletedAt`, so tombstones are not excluded from listings. -/
theorem c2_tombstone_in_listings_counterexample :
    tomb1.deletedAt ≠ none ∧
    (getPhotosByTags (some "a") true [] [tomb1]).response
      = .ok (.many [tomb1]) ∧
    (pagedListVideos (some 1) (some 10) (some "a") [tomb1]).videos = [tomb1] ∧
    (pagedListVideos none none none [tomb1]).videos = [tomb1] := by
  exact ⟨by decide, by decide, by decide, by decide⟩

/-- C2 amended: an asset with non-null `deletedAt` remains fetchable by
direct id lookup, but it is NOT excluded from listings: the tag search and
the paged listing return every matching asset regardless of `deletedAt`
(no where-clause mentions the tombstone field). -/
theorem c2_amended_tombstones_visible (a : Asset) (store : List Asset)
    (t : String) (cache : Cache) (hmem : a ∈ store) :
    (hasSomeTag (splitTrim t) a = true → t ≠ "" →
      cacheGet cache (photosTagsKey t) = none →
      ∃ l, (getPhotosByTags (some t) true cache store).response
          = .ok (.many l) ∧ a ∈ l) ∧
    (∀ page tag, pagedWhere tag a = true →
      a ∈ (pagedListVideos page (some 0) tag store).videos) ∧
    (cacheGet cache ("photos:id:" ++ a.id) = none → a.id ≠ "" →
      store.find? (fun b => b.id == a.id) = some a →
      (getPhotoById (some a.id) true cache store).response
        = .ok (.single a)) := by
  refine ⟨?_, ?_, ?_⟩
  · intro hmatch hne hmiss
    have hinm : a ∈ store.filter (hasSomeTag (splitTrim t)) :=
      List.mem_filter.mpr ⟨hmem, hmatch⟩
    have hnonempty : store.filter (hasSomeTag (splitTrim t)) ≠ [] := by
      intro h0
      rw [h0] at hinm
      exact (List.not_mem_nil a) hinm
    refine ⟨store.filter (hasSomeTag (splitTrim t)), ?_, hinm⟩
    simp [getPhotosByTags, hne, fetchAndCache, hmiss, runQuery,
      isEmptyResult_many_eq_false _ hnonempty]
  · intro page tag htag
    have hv : (pagedListVideos page (some 0) tag store).videos
        = store.filter (pagedWhere tag) := by
      simp [pagedListVideos]
    rw [hv]
    exact List.mem_filter.mpr ⟨hmem, htag⟩
  · intro hmiss hne hf
    simp [getPhotoById, hne, fetchAndCache, hmiss, runQuery, hf, isEmptyResult]

/-- C2 amended witness: a concrete tombstoned record shows up in the tag
search, in the fetch-all listing, and in the direct id lookup. -/
theorem c2_amended_tombstones_visible_witness :
    (∃ l, (getPhotosByTags (some "a") true [] [tomb1]).response
        = .ok (.many l) ∧ tomb1 ∈ l) ∧
    tomb1 ∈ (pagedListVideos none (some 0) none [tomb1]).videos ∧
    (getPhotoById (some tomb1.id) true [] [tomb1]).response
      = .ok (.single tomb1) := by
  have h := c2_amended_tombstones_visible tomb1 [tomb1] "a" [] (by decide)
  exact ⟨h.1 (by decide) (by decide) rfl, h.2.1 none none (by decide),
    h.2.2 rfl (by decide) rfl⟩

/-- C3 counterexample: soft-deleting an id whose by-id cache entry is
populated leaves that entry in place, and the next `getById` serves the
stale pre-delete record rather than the tombstoned row now in the store. -/
theorem c3_stale_after_delete_counterexample :
    (softDeletePhoto (some "p1") 99
        [("photos:id:p1", CacheVal.single p1, 3600)] [p1]).cache
      = [("photos:id:p1", CacheVal.single p1, 3600)] ∧
    (softDeletePhoto (some "p1") 99
        [("photos:id:p1", CacheVal.single p1, 3600)] [p1]).store
      = [tombstone 99 p1] ∧
    (getPhotoById (some "p1") true
        (softDeletePhoto (some "p1") 99
          [("photos:id:p1", CacheVal.single p1, 3600)] [p1]).cache
        (softDeletePhoto (some "p1") 99
          [("photos:id:p1", CacheVal.single p1, 3600)] [p1]).store).response
      = .ok (.single p1) ∧
    p1 ≠ tombstone 99 p1 := by
  exact ⟨by decide, by decide, by decide, by decide⟩

/-- C3 amended: the delete handlers never perform any cache operation —
the cache after a soft-delete (photo or video) is identical to the cache
before it, so a populated by-id entry keeps serving the pre-delete state
until its TTL expires. -/
theorem c3_amended_delete_never_touches_cache (id : Option String)
    (now : Nat) (cache : Cache) (store : List Asset) :
    (softDeletePhoto id now cache store).cache = cache ∧
    (softDeleteVideo id now cache store).cache = cache := by
  constructor
  · cases id with
    | none => rfl
    | some i =>
      simp only [softDeletePhoto]
      split
      · rfl
      · split <;> rfl
  · cases id with
    | none => rfl
    | some i =>
      simp only [softDeleteVideo]
      split
      · rfl
      · split <;> rfl

/-- C6: over exactly 25 matching records, `page=2, limit=10` returns items
11–20 (`drop 10, take 10` of the match list) with `totalPages=3`,
`hasNextPage=true`, `hasPreviousPage=true`; `limit=0` returns every match
with `totalPages=1` and `currentPage=null`; whenever paging is active the
flags are computed as `currentPage < totalPages` and `currentPage > 1`. -/
theorem c6_pagination (store : List Asset) (h25 : store.length = 25) :
    (pagedListVideos (some 2) (some 10) none store).videos
      = (store.drop 10).take 10 ∧
    (pagedListVideos (some 2) (some 10) none store).totalVideos = 25 ∧
    (pagedListVideos (some 2) (some 10) none store).totalPages = 3 ∧
    (pagedListVideos (some 2) (some 10) none store).currentPage = some 2 ∧
    (pagedListVideos (some 2) (some 10) none store).hasNextPage = true ∧
    (pagedListVideos (some 2) (some 10) none store).hasPreviousPage = true ∧
    (∀ page tag st, (pagedListVideos page (some 0) tag st).videos
        = st.filter (pagedWhere tag) ∧
      (pagedListVideos page (some 0) tag st).totalPages = 1 ∧
      (pagedListVideos page (some 0) tag st).currentPage = none ∧
      (pagedListVideos page (some 0) tag st).hasNextPage = false ∧
      (pagedListVideos page (some 0) tag st).hasPreviousPage = false) ∧
    (∀ page n tag st, n ≠ 0 →
      ∃ cp, (pagedListVideos page (some n) tag st).currentPage = some cp ∧
        (pagedListVideos page (some n) tag st).hasNextPage
          = decide (cp < (pagedListVideos page (some n) tag st).totalPages) ∧
        (pagedListVideos page (some n) tag st).hasPreviousPage
          = decide (1 < cp)) := by
  have hfilter : store.filter (pagedWhere none) = store := by
    simp [pagedWhere]
  refine ⟨?_, ?_, ?_, ?_, ?_, ?_, ?_, ?_⟩
  · simp [pagedListVideos, hfilter]
  · simp [pagedListVideos, hfilter, h25]
  · simp [pagedListVideos, hfilter, h25]
  · simp [pagedListVideos]
  · simp [pagedListVideos, hfilter, h25]
  · simp [pagedListVideos]
  · intro page tag st
    refine ⟨by simp [pagedListVideos], by simp [pagedListVideos],
      by simp [pagedListVideos], by simp [pagedListVideos],
      by simp [pagedListVideos]⟩
  · intro page n tag st hn
    cases page with
    | none =>
        exact ⟨1, by simp [pagedListVideos, hn], by simp [pagedListVideos, hn],
          by simp [pagedListVideos, hn]⟩
    | some v =>
        by_cases hv : v > 0
        · exact ⟨v, by simp [pagedListVideos, hn, hv],
            by simp [pagedListVideos, hn, hv],
            by simp [pagedListVideos, hn, hv]⟩
        · exact ⟨1, by simp [pagedListVideos, hn, hv],
            by simp [pagedListVideos, hn, hv],
            by simp [pagedListVideos, hn, hv]⟩

/-- C6 witness: the 25-record scenario on a concrete store. -/
theorem c6_pagination_witness :
    (pagedListVideos (some 2) (some 10) none (List.replicate 25 p1)).videos
      = ((List.replicate 25 p1).drop 10).take 10 ∧
    (pagedListVideos (some 2) (some 10) none (List.replicate 25 p1)).totalPages
      = 3 ∧
    (pagedListVideos (some 2) (some 10) none (List.replicate 25 p1)).hasNextPage
      = true := by
  have h := c6_pagination (List.replicate 25 p1) (by simp)
  exact ⟨h.1, h.2.2.1, h.2.2.2.2.1⟩

/-- C7: the upload capacity check counts rows in the Record Store (the
handler takes no cache input at all): at 50 existing photo rows the upload
answers a capacity error and inserts nothing; at 49 rows a valid upload
succeeds and the count becomes 50; the video handler does the same with
ceiling 20. -/
theorem c7_capacity (req : UploadReq) (genId : String) (now : Nat)
    (store vstore : List Asset) (filename : String) (tagList : List String) :
    (store.length ≥ 50 → req.file = some filename → req.tags = some tagList →
      uploadPhoto req genId now store =
        { response := .badRequest "Photo storage limit reached (50)",
          store := store }) ∧
    (store.length = 49 →
      req = { file := some filename, tags := some tagList, imageId := none } →
      uploadPhoto req genId now store =
        { response := .ok (.single (newAsset filename tagList none genId now)),
          store := store ++ [newAsset filename tagList none genId now] } ∧
      (uploadPhoto req genId now store).store.length = 50) ∧
    (vstore.length ≥ 20 → req.file = some filename → req.tags = some tagList →
      uploadVideo req genId now vstore =
        { response := .badRequest "Video storage limit reached (20)",
          store := vstore }) := by
  refine ⟨?_, ?_, ?_⟩
  · intro h50 hfile htags
    simp [uploadPhoto, hfile, htags, h50]
  · intro h49 hreq
    subst hreq
    constructor
    · simp [uploadPhoto, h49]
    · simp [uploadPhoto, h49]
  · intro h20 hfile htags
    simp [uploadVideo, hfile, htags, h20]

/-- C7 witness: concrete stores at and below the photo ceiling, and at the
video ceiling. -/
theorem c7_capacity_witness :
    uploadPhoto { file := some "f.jpg", tags := some ["a"], imageId := none }
        "g1" 7 (List.replicate 50 p1) =
      { response := .badRequest "Photo storage limit reached (50)",
        store := List.replicate 50 p1 } ∧
    (uploadPhoto { file := some "f.jpg", tags := some ["a"], imageId := none }
        "g1" 7 (List.replicate 49 p1)).store.length = 50 ∧
    uploadVideo { file := some "f.mp4", tags := some ["a"], imageId := none }
        "g2" 7 (List.replicate 20 p1) =
      { response := .badRequest "Video storage limit reached (20)",
        store := List.replicate 20 p1 } := by
  have h50 := c7_capacity
    { file := some "f.jpg", tags := some ["a"], imageId := none }
    "g1" 7 (List.replicate 50 p1) (List.replicate 20 p1) "f.jpg" ["a"]
  have h49 := c7_capacity
    { file := some "f.jpg", tags := some ["a"], imageId := none }
    "g1" 7 (List.replicate 49 p1) (List.replicate 20 p1) "f.jpg" ["a"]
  have h20 := c7_capacity
    { file := some "f.mp4", tags := some ["a"], imageId := none }
    "g2" 7 (List.replicate 49 p1) (List.replicate 20 p1) "f.mp4" ["a"]
  exact ⟨h50.1 (by simp) rfl rfl, (h49.2.1 (by simp) rfl).2,
    h20.2.2 (by simp) rfl rfl⟩

/-- C9: soft-delete of a present id updates the row in place — only
`deletedAt` (set to now) and `updatedAt` (bumped by Prisma) change; `id`,
`url`, `tags`, `title`, `createdAt` are untouched; the store keeps the same
length and still contains the (tombstoned) row.  Soft-delete of an absent id
answers 404 and changes nothing. -/
theorem c9_softdelete_frame (i : String) (now : Nat) (cache : Cache)
    (store : List Asset) (hne : i ≠ "") :
    (∀ a, store.find? (fun b => b.id == i) = some a →
      (softDeletePhoto (some i) now cache store).response
        = .okDeleted (tombstone now a) ∧
      (softDeletePhoto (some i) now cache store).store
        = store.map (fun b => if b.id == i then tombstone now a else b) ∧
      (softDeletePhoto (some i) now cache store).store.length
        = store.length ∧
      tombstone now a ∈ (softDeletePhoto (some i) now cache store).store ∧
      (tombstone now a).id = a.id ∧ (tombstone now a).url = a.url ∧
      (tombstone now a).tags = a.tags ∧ (tombstone now a).title = a.title ∧
      (tombstone now a).createdAt = a.createdAt ∧
      (tombstone now a).deletedAt = some now ∧
      (tombstone now a).updatedAt = now) ∧
    (store.find? (fun b => b.id == i) = none →
      softDeletePhoto (some i) now cache store =
        { response := .notFound "Photo", cache := cache, store := store }) := by
  constructor
  · intro a hf
    have hmem : a ∈ store := List.mem_of_find?_eq_some hf
    have hpred : (a.id == i) = true := by
      have h0 := List.find?_some hf
      simpa using h0
    refine ⟨?_, ?_, ?_, ?_, rfl, rfl, rfl, rfl, rfl, rfl, rfl⟩
    · simp [softDeletePhoto, hne, hf]
    · simp [softDeletePhoto, hne, hf]
    · simp [softDeletePhoto, hne, hf]
    · have hst : (softDeletePhoto (some i) now cache store).store
          = store.map (fun b => if b.id == i then tombstone now a else b) := by
        simp [softDeletePhoto, hne, hf]
      rw [hst, List.mem_map]
      exact ⟨a, hmem, by simp [hpred]⟩
  · intro hf
    simp [softDeletePhoto, hne, hf]

/-- C9 witness: concrete present and absent ids. -/
theorem c9_softdelete_frame_witness :
    (softDeletePhoto (some "p1") 9 [] [p1]).response
      = .okDeleted (tombstone 9 p1) ∧
    (softDeletePhoto (some "p1") 9 [] [p1]).store.length = 1 ∧
    softDeletePhoto (some "missing") 9 [] [p1] =
      { response := .notFound "Photo", cache := [], store := [p1] } := by
  have h := c9_softdelete_frame "p1" 9 [] [p1] (by decide)
  have h2 := c9_softdelete_frame "missing" 9 [] [p1] (by decide)
  exact ⟨(h.1 p1 rfl).1, (h.1 p1 rfl).2.2.1, h2.2 rfl⟩

end PhotoApi
